import Mathlib

/-!
Verification development for the IntesaToActual converter
(src/converter.py and src/app.py), a tool that converts Intesa SanPaolo
bank export files (CSV or XLSX) into the fixed 8-column CSV format of
Actual Budget.

The Python code is shallowly embedded as executable Lean definitions:

* text (CSV) content is a String; the line splitting, header search,
  csv parsing (Python csv.reader default dialect restricted to inputs
  that contain no carriage return, which is the only way the reader is
  invoked here because splitlines has already removed all line
  terminators), DictReader field lookup and csv writer quoting are all
  modelled character by character;
* grid (XLSX) content is a list of rows, each row a list of cells,
  where a cell is an Option String: none models an empty cell (Python
  None) and some s a textual cell. Numeric and datetime cells of
  openpyxl are outside the model (no claim below depends on them); the
  Python truthiness test used by the code is modelled by cell_truthy;
* errors raised by the Python functions become an Except value with an
  explicit error type carrying the same message text.
-/

namespace IntesaToActual

set_option maxRecDepth 8192

/-- Python list membership test for characters, used by helpers below. -/
def list_begins_with : List Char → List Char → Bool
  | [], _ => true
  | _ :: _, [] => false
  | p :: ps, c :: cs => p = c && list_begins_with ps cs

/-- Models the Python substring test (pat in s) on unpacked characters. -/
def list_has_sub (pat : List Char) : List Char → Bool
  | [] => pat.isEmpty
  | c :: cs => list_begins_with pat (c :: cs) || list_has_sub pat cs

/-- Models the Python expression (pat in s) for strings. -/
def contains_sub (s pat : String) : Bool := list_has_sub pat.data s.data

/-- Models str.join with a separator over a list of parts. -/
def join_with (sep : String) : List String → String
  | [] => ""
  | [s] => s
  | s :: rest => s ++ sep ++ join_with sep rest

/-- Helper for splitlines: splits on LF, CR and CRLF, accumulating the
current line in reverse. Python str.splitlines also splits on some rarer
Unicode boundaries (vertical tab, form feed, U+2028, ...) which no input
of the claims contains; the model covers the three common terminators. -/
def splitlines_aux : List Char → List Char → List String
  | [], acc => if acc.isEmpty then [] else [String.mk acc.reverse]
  | '\r' :: '\n' :: rest, acc => String.mk acc.reverse :: splitlines_aux rest []
  | '\r' :: rest, acc => String.mk acc.reverse :: splitlines_aux rest []
  | '\n' :: rest, acc => String.mk acc.reverse :: splitlines_aux rest []
  | c :: rest, acc => splitlines_aux rest (c :: acc)

/-- Models Python str.splitlines(): no trailing empty line for a trailing
terminator, and an empty string gives an empty list. -/
def splitlines (s : String) : List String := splitlines_aux s.data []

/-- The ASCII uppercase letters paired with their lowercase forms. -/
def lower_pairs : List (Char × Char) :=
  [('A', 'a'), ('B', 'b'), ('C', 'c'), ('D', 'd'), ('E', 'e'), ('F', 'f'),
   ('G', 'g'), ('H', 'h'), ('I', 'i'), ('J', 'j'), ('K', 'k'), ('L', 'l'),
   ('M', 'm'), ('N', 'n'), ('O', 'o'), ('P', 'p'), ('Q', 'q'), ('R', 'r'),
   ('S', 's'), ('T', 't'), ('U', 'u'), ('V', 'v'), ('W', 'w'), ('X', 'x'),
   ('Y', 'y'), ('Z', 'z')]

/-- ASCII lowercasing of one character; Python str.lower also lowercases
non-ASCII letters, which no claim input contains. -/
def to_lower_char (c : Char) : Char :=
  match lower_pairs.find? (fun p => p.1 = c) with
  | some p => p.2
  | none => c

/-- Models str.lower() for ASCII strings. -/
def to_lower_str (s : String) : String := String.mk (s.data.map to_lower_char)

/-- Characters stripped by Python str.strip() (ASCII whitespace). -/
def py_is_space (c : Char) : Bool :=
  c = ' ' || c = '\t' || c = '\n' || c = '\r' || c = '\x0b' || c = '\x0c'

/-- Models Python str.strip(). -/
def strip_str (s : String) : String :=
  String.mk (((s.data.dropWhile py_is_space).reverse.dropWhile py_is_space).reverse)

/-- Keeps the characters after the last dot, the whole input when there is
no dot: this is s.split(chr(46))[-1] from transform_file, and also the
rsplit in allowed_file when a dot is present. -/
def last_dot_segment : List Char → List Char → List Char
  | [], seg => seg.reverse
  | c :: rest, seg =>
    if c = '.' then last_dot_segment rest [] else last_dot_segment rest (c :: seg)

/-! Constants from converter.py. -/

/-- Input column name INPUT_COLUMNS for the date role. -/
def INPUT_COLUMNS_date : String := "Data"

/-- Input column name INPUT_COLUMNS for the payee role. -/
def INPUT_COLUMNS_payee : String := "Operazione"

/-- Input column name INPUT_COLUMNS for the notes role. -/
def INPUT_COLUMNS_notes : String := "Dettagli"

/-- Input column name INPUT_COLUMNS for the amount role. -/
def INPUT_COLUMNS_amount : String := "Importo"

/-- Output column names (converter.py OUTPUT_COLUMNS). -/
def OUTPUT_COLUMNS : List String :=
  ["Account", "Date", "Payee", "Notes", "Category", "Amount", "Split_Amount", "Cleared"]

/-- Fixed account name for output (converter.py ACCOUNT_NAME). -/
def ACCOUNT_NAME : String := "Intesa SanPaolo"

/-! Header search (converter.py lines 24-38). -/

/-- The matching condition of both header searches: the three marker
substrings Data, Operazione, Dettagli all occur in the text. -/
def header_line_match (line : String) : Bool :=
  contains_sub line INPUT_COLUMNS_date &&
    contains_sub line INPUT_COLUMNS_payee &&
    contains_sub line INPUT_COLUMNS_notes

/-- Loop of find_header_row_csv, carrying the running index. -/
def find_header_row_csv_aux : Nat → List String → Option Nat
  | _, [] => none
  | i, line :: rest =>
    if header_line_match line then some i else find_header_row_csv_aux (i + 1) rest

/-- Models converter.py _find_header_row_csv: index of the first line whose
raw text contains the three marker substrings; none models the ValueError
that the Python function raises when no line matches. -/
def _find_header_row_csv (lines : List String) : Option Nat :=
  find_header_row_csv_aux 0 lines

/-- A grid cell: none is an empty cell (Python None), some s a text cell. -/
abbrev Cell := Option String

/-- A grid (XLSX sheet contents, rows of cells). -/
abbrev Grid := List (List Cell)

/-- Models the comprehension str(cell) if cell else the empty string:
a falsy cell (None or empty text) renders as the empty string. -/
def py_cell_str (c : Cell) : String :=
  match c with
  | none => ""
  | some s => s

/-- The space-joined row text built by _find_header_row_xlsx. -/
def row_str (row : List Cell) : String := join_with " " (row.map py_cell_str)

/-- Loop of find_header_row_xlsx, carrying the running 1-based row index. -/
def find_header_row_xlsx_aux : Nat → Grid → Option Nat
  | _, [] => none
  | i, row :: rest =>
    if header_line_match (row_str row) then some i
    else find_header_row_xlsx_aux (i + 1) rest

/-- Models converter.py _find_header_row_xlsx: the 1-based index of the
first row whose space-joined cell text contains the three marker
substrings; none models the ValueError raised when no row matches. -/
def _find_header_row_xlsx (g : Grid) : Option Nat := find_header_row_xlsx_aux 1 g

/-! Column resolution (converter.py lines 41-54). -/

/-- The indices dictionary of _get_column_indices: one optional column
index per role, none while the role key is absent. -/
structure ColIndices where
  date : Option Nat
  payee : Option Nat
  notes : Option Nat
  amount : Option Nat
deriving DecidableEq

/-- The cell text compared by _get_column_indices: str(cell).strip() for a
truthy cell, the empty string for a falsy one. -/
def cell_str_of (c : Cell) : String :=
  match c with
  | none => ""
  | some s => if s = "" then "" else strip_str s

/-- Loop of _get_column_indices over the enumerated header cells; a later
matching cell overwrites an earlier one, as Python dict assignment does. -/
def get_column_indices_aux : Nat → List Cell → ColIndices → ColIndices
  | _, [], acc => acc
  | i, cell :: rest, acc =>
    let cs := cell_str_of cell
    let acc' :=
      if cs = INPUT_COLUMNS_date then ⟨some i, acc.payee, acc.notes, acc.amount⟩
      else if cs = INPUT_COLUMNS_payee then ⟨acc.date, some i, acc.notes, acc.amount⟩
      else if cs = INPUT_COLUMNS_notes then ⟨acc.date, acc.payee, some i, acc.amount⟩
      else if cs = INPUT_COLUMNS_amount then ⟨acc.date, acc.payee, acc.notes, some i⟩
      else acc
    get_column_indices_aux (i + 1) rest acc'

/-- Models converter.py _get_column_indices: maps each role to the column
whose trimmed cell text equals its marker label exactly. -/
def _get_column_indices (header_row : List Cell) : ColIndices :=
  get_column_indices_aux 0 header_row ⟨none, none, none, none⟩

/-! Row projection for the grid format (converter.py lines 93-118). -/

/-- Python truthiness of a cell: None and the empty string are falsy. -/
def cell_truthy (c : Cell) : Bool :=
  match c with
  | none => false
  | some s => s ≠ ""

/-- Role value extraction of transform_xlsx: an unresolved role yields the
empty string; a resolved one reads the cell at the resolved index and
renders a falsy value as the empty string (str(v) if v else blank). A row
too short for the index also yields the empty cell, which in openpyxl
cannot happen because iter_rows pads every row to the sheet width. -/
def role_val (idx : Option Nat) (row : List Cell) : String :=
  match idx with
  | none => ""
  | some i => py_cell_str (row.getD i none)

/-- The eight output fields of one grid data row, in OUTPUT_COLUMNS order
(the order csv.DictWriter serialises the row dict in). -/
def xlsx_output_row (ci : ColIndices) (row : List Cell) : List String :=
  [ACCOUNT_NAME, role_val ci.date row, role_val ci.payee row,
   role_val ci.notes row, "", role_val ci.amount row, "", ""]

/-! CSV serialisation (csv.writer, default dialect: delimiter comma,
quote character double quote, doublequote on, QUOTE_MINIMAL, line
terminator CRLF). -/

/-- A field must be quoted when it contains the delimiter, the quote
character or a line break. -/
def needs_quote (s : String) : Bool :=
  s.data.any (fun c => c = ',' || c = '"' || c = '\n' || c = '\r')

/-- Wraps a field in quotes, doubling embedded quote characters. -/
def quote_field (s : String) : String :=
  "\"" ++ String.mk (s.data.foldl
    (fun acc c => if c = '"' then acc ++ ['"', '"'] else acc ++ [c]) []) ++ "\""

/-- One serialised field under QUOTE_MINIMAL. -/
def csv_field (s : String) : String := if needs_quote s then quote_field s else s

/-- One serialised record with the CRLF terminator; a record that is a
single empty field is written as a pair of quotes, as the csv module does
to keep it distinct from a blank line. -/
def write_row (r : List String) : String :=
  (match r with
   | [""] => "\"\""
   | _ => join_with "," (r.map csv_field)) ++ "\r\n"

/-- Serialises a list of records in order. -/
def write_rows : List (List String) → String
  | [] => ""
  | r :: rest => write_row r ++ write_rows rest

/-! CSV parsing (csv.reader, default dialect, non-strict). The reader is
only ever fed the join of splitlines output, so its input contains no
carriage return and the end-of-line handling reduces to the LF cases. -/

/-- Parser states of the csv reader state machine. -/
inductive PState where
  | startRecord
  | startField
  | inField
  | inQuoted
  | quoteInQuoted
deriving DecidableEq

/-- Parser accumulator: completed records in order, completed fields of
the current record, the current field text, and the machine state. -/
structure ParseAcc where
  recs : List (List String)
  fields : List String
  field : String
  st : PState

/-- Saves the current field (parse_save_field). -/
def save_field (a : ParseAcc) : ParseAcc :=
  ⟨a.recs, a.fields ++ [a.field], "", a.st⟩

/-- Saves the current field and record and returns to the start-of-record
state (parse_save_field followed by parse_save_record). -/
def end_record (a : ParseAcc) : ParseAcc :=
  ⟨a.recs ++ [a.fields ++ [a.field]], [], "", .startRecord⟩

/-- Transition taken at the start of a field (also reached by fallthrough
from the start of a record). -/
def start_field_step (a : ParseAcc) (c : Char) : ParseAcc :=
  if c = '\n' then end_record a
  else if c = '"' then ⟨a.recs, a.fields, a.field, .inQuoted⟩
  else if c = ',' then ⟨a.recs, a.fields ++ [a.field], "", .startField⟩
  else ⟨a.recs, a.fields, a.field.push c, .inField⟩

/-- One character of the csv reader state machine. A newline at the start
of a record yields an empty record, exactly the blank-line record the
Python reader returns. After a closing quote, a quote doubles, a comma or
newline ends the field, and any other character is appended in non-strict
mode. -/
def csv_step (a : ParseAcc) (c : Char) : ParseAcc :=
  match a.st with
  | .startRecord =>
    if c = '\n' then ⟨a.recs ++ [[]], [], "", .startRecord⟩
    else start_field_step a c
  | .startField => start_field_step a c
  | .inField =>
    if c = '\n' then end_record a
    else if c = ',' then ⟨a.recs, a.fields ++ [a.field], "", .startField⟩
    else ⟨a.recs, a.fields, a.field.push c, .inField⟩
  | .inQuoted =>
    if c = '"' then ⟨a.recs, a.fields, a.field, .quoteInQuoted⟩
    else ⟨a.recs, a.fields, a.field.push c, .inQuoted⟩
  | .quoteInQuoted =>
    if c = '"' then ⟨a.recs, a.fields, a.field.push '"', .inQuoted⟩
    else if c = ',' then ⟨a.recs, a.fields ++ [a.field], "", .startField⟩
    else if c = '\n' then end_record a
    else ⟨a.recs, a.fields, a.field.push c, .inField⟩

/-- End-of-input: a pending field or record is flushed unless the machine
sits at the start of a record. -/
def csv_flush (a : ParseAcc) : List (List String) :=
  match a.st with
  | .startRecord => a.recs
  | _ => a.recs ++ [a.fields ++ [a.field]]

/-- Models csv.reader over a whole carriage-return-free text: the list of
records, each a list of field strings. -/
def parse_csv (s : String) : List (List String) :=
  csv_flush (s.data.foldl csv_step ⟨[], [], "", .startRecord⟩)

/-! DictReader row lookup. A DictReader row dict maps each fieldname to
the value at its last occurrence (later duplicate fieldnames overwrite
earlier ones, and fieldnames beyond the record length are set to None,
also overwriting); row.get(key, blank) falls back to the empty string only
for an absent key, and a None value is later serialised by the writer as
the empty string, so both cases render empty here. -/

/-- Index of the last occurrence of key in the fieldnames list. -/
def last_idx_of_aux : Nat → List String → String → Option Nat
  | _, [], _ => none
  | i, x :: rest, k =>
    match last_idx_of_aux (i + 1) rest k with
    | some j => some j
    | none => if x = k then some i else none

/-- Index of the last occurrence of key, starting at zero. -/
def last_idx_of (l : List String) (key : String) : Option Nat :=
  last_idx_of_aux 0 l key

/-- The output text a DictReader row yields for one key. -/
def dict_get (fieldnames record : List String) (key : String) : String :=
  match last_idx_of fieldnames key with
  | none => ""
  | some i =>
    match record.get? i with
    | some v => v
    | none => ""

/-- The eight output fields of one text-format data row, in OUTPUT_COLUMNS
order (converter.py lines 170-179). -/
def csv_output_row (fieldnames record : List String) : List String :=
  [ACCOUNT_NAME, dict_get fieldnames record INPUT_COLUMNS_date,
   dict_get fieldnames record INPUT_COLUMNS_payee,
   dict_get fieldnames record INPUT_COLUMNS_notes, "",
   dict_get fieldnames record INPUT_COLUMNS_amount, "", ""]

/-! The two transforms (converter.py lines 57-192). Both are modelled as
pure functions from input content to the returned CSV text; the optional
output-file write of the Python functions is plain I/O plumbing of the
same returned string. -/

/-- Possible conversion errors, by Python exception site: the three
ValueError constants of converter.py, the FileNotFoundError raised when a
format branch opens a missing path, and any other exception, carrying the
text of that exception (str(e), which is what the CLI prints). -/
inductive ConvError where
  | headerNotFound
  | unsupportedType (ext : String)
  | ambiguousType
  | fileNotFound
  | genericFailure (msg : String)
deriving DecidableEq

/-- Decidable equality for conversion results, used to evaluate the
transforms on concrete inputs inside proofs. -/
instance except_dec_eq {e a : Type} [DecidableEq e] [DecidableEq a] :
    DecidableEq (Except e a)
  | .error x, .error y =>
    if h : x = y then .isTrue (by rw [h])
    else .isFalse (fun he => h (by injection he))
  | .error _, .ok _ => .isFalse (fun he => by injection he)
  | .ok _, .error _ => .isFalse (fun he => by injection he)
  | .ok x, .ok y =>
    if h : x = y then .isTrue (by rw [h])
    else .isFalse (fun he => h (by injection he))

/-- The data rows emitted by transform_csv: records after the header
record, blank records skipped (the while loop of DictReader next), each
projected through the row dict lookups. -/
def emitted_rows_csv (content : String) : List (List String) :=
  match _find_header_row_csv (splitlines content) with
  | none => []
  | some i =>
    let records := parse_csv (join_with "\n" ((splitlines content).drop i))
    let fieldnames := records.headD []
    ((records.drop 1).filter (fun r => !r.isEmpty)).map (csv_output_row fieldnames)

/-- Models converter.py transform_csv on already-decoded text content. -/
def transform_csv (content : String) : Except ConvError String :=
  match _find_header_row_csv (splitlines content) with
  | none => .error .headerNotFound
  | some _ => .ok (write_row OUTPUT_COLUMNS ++ write_rows (emitted_rows_csv content))

/-- The data rows emitted by transform_xlsx: rows strictly after the
1-based header row, rows with no truthy cell skipped, each projected
through the resolved column indices. -/
def emitted_rows_xlsx (g : Grid) : List (List String) :=
  match _find_header_row_xlsx g with
  | none => []
  | some idx =>
    let ci := _get_column_indices (g.getD (idx - 1) [])
    ((g.drop idx).filter (fun row => row.any cell_truthy)).map (xlsx_output_row ci)

/-- Models converter.py transform_xlsx on an already-loaded cell grid. -/
def transform_xlsx (g : Grid) : Except ConvError String :=
  match _find_header_row_xlsx g with
  | none => .error .headerNotFound
  | some _ => .ok (write_row OUTPUT_COLUMNS ++ write_rows (emitted_rows_xlsx g))

/-! Format dispatch (converter.py transform_file, lines 195-221). -/

/-- The content behind an input: decoded text, a loaded cell grid, or
bytes that are neither (whose use fails with some generic exception). -/
inductive FileData where
  | textData (s : String)
  | gridData (g : Grid)
  | otherData
deriving DecidableEq

/-- What opening a filesystem path yields: the data behind it, or the
FileNotFoundError of a missing path. -/
inductive FsRead where
  | found (d : FileData)
  | missing
deriving DecidableEq

/-- An input to transform_file: a filesystem path string together with
what opening it will yield (the open only happens inside the selected
format branch), or an opaque stream with an optional filename hint. -/
inductive FileInput where
  | pathInput (p : String) (fs : FsRead)
  | streamInput (filename : Option String) (d : FileData)
deriving DecidableEq

/-- The name the dispatcher sniffs the extension from. The source tests
isinstance(input_file, str) for paths and then the truthiness of the
filename parameter (elif filename:), so an empty filename hint counts as
absent, while an empty path string is still a name (with extension the
empty string). -/
def input_name : FileInput → Option String
  | .pathInput p _ => some p
  | .streamInput (some f) _ => if f = "" then none else some f
  | .streamInput none _ => none

/-- The file access performed inside a format branch: transform_csv opens
the path for reading and transform_xlsx hands it to load_workbook, either
of which raises FileNotFoundError for a missing path; a stream already
carries its data. This runs only after the extension dispatch. -/
def open_input : FileInput → Except ConvError FileData
  | .pathInput _ (.found d) => .ok d
  | .pathInput _ .missing => .error .fileNotFound
  | .streamInput _ d => .ok d

/-- Models name.lower().split(dot)[-1]: lowercase the whole name, then the
segment after the last dot, the whole name when it has no dot. -/
def file_ext (name : String) : String :=
  String.mk (last_dot_segment (to_lower_str name).data [])

/-- The dispatch decision of transform_file, computed from the extension
alone (xlsx checked first, then csv, as in the source). -/
inductive Dispatch where
  | toXlsx
  | toCsv
  | unsupported (ext : String)
  | ambiguous
deriving DecidableEq

/-- Which branch transform_file takes; depends only on the path or
filename, never on the content. -/
def dispatch_of (inp : FileInput) : Dispatch :=
  match input_name inp with
  | none => .ambiguous
  | some name =>
    let ext := file_ext name
    if ext = "xlsx" then .toXlsx
    else if ext = "csv" then .toCsv
    else .unsupported ext

/-- The csv branch: decoded text is transformed; any other content fails
as some generic exception (a decode error in Python) whose message text
the model does not track — no theorem mentions it. -/
def run_csv : FileData → Except ConvError String
  | .textData s => transform_csv s
  | _ => .error (.genericFailure "")

/-- The xlsx branch: a loadable grid is transformed; any other content
fails as some generic exception (a bad zip container in Python) whose
message text the model does not track — no theorem mentions it. -/
def run_xlsx : FileData → Except ConvError String
  | .gridData g => transform_xlsx g
  | _ => .error (.genericFailure "")

/-- Models converter.py transform_file: the extension dispatch happens
first, on the name alone; only the selected format branch then performs
its file access (open_input) and transforms what it read. -/
def transform_file (inp : FileInput) : Except ConvError String :=
  match dispatch_of inp with
  | .ambiguous => .error .ambiguousType
  | .toXlsx => (open_input inp).bind run_xlsx
  | .toCsv => (open_input inp).bind run_csv
  | .unsupported e => .error (.unsupportedType e)

/-- The text the Python exception modelled by each error renders as
(str(e)): the three ValueError constants of converter.py, the carried
message of any other exception, and — for FileNotFoundError, which every
caller in the sources handles by constructor, never by text — the empty
string. -/
def err_msg : ConvError → String
  | .headerNotFound => "Could not find header row in input file"
  | .unsupportedType e => "Unsupported file type: " ++ e ++ ". Use .csv or .xlsx files."
  | .ambiguousType => "Cannot determine file type. Provide filename parameter for file objects."
  | .fileNotFound => ""
  | .genericFailure m => m

/-! Upload-handler extension check (app.py lines 12-17). -/

/-- Extensions accepted by the upload handler. -/
def ALLOWED_EXTENSIONS : List String := ["csv", "xlsx"]

/-- Models app.py allowed_file: the filename must contain a dot and the
lowercased segment after the last dot must be an allowed extension. -/
def allowed_file (filename : String) : Bool :=
  filename.data.contains '.' &&
    (ALLOWED_EXTENSIONS.contains
      (to_lower_str (String.mk (last_dot_segment filename.data []))))

/-! CLI entry point (converter.py main, lines 224-248). The filesystem is
abstracted as what opening the source path will yield (FsRead, consumed
inside the selected format branch); stdout is modelled as the list of
printed strings. -/

/-- Observable outcome of a CLI run: the process exit status (zero for a
plain return) and the printed lines. -/
structure CliResult where
  exitCode : Nat
  output : List String
deriving DecidableEq

/-- Models converter.py main: usage text and exit 1 when no input path is
given; otherwise one call to transform_file on the path (so the extension
check runs before any file is opened), then the except clauses in source
order — FileNotFoundError prints a message naming the path and exits 1,
any other exception prints its own message and exits 1 — and on success
exit 0, printing either the confirmation (when an output path was given)
or the converted text. -/
def main (argv : List String) (fs : FsRead) : CliResult :=
  if argv.length < 2 then
    ⟨1, ["Usage: python converter.py <input.csv|input.xlsx> [output.csv]",
         "\nTransforms Intesa SanPaolo CSV/XLSX exports to Actual Budget format."]⟩
  else
    let input_path := argv.getD 1 ""
    match transform_file (.pathInput input_path fs) with
    | .ok result =>
      ⟨0, [match argv.get? 2 with
           | some op => "Converted successfully! Output saved to: " ++ op
           | none => result]⟩
    | .error .fileNotFound => ⟨1, ["Error: File not found: " ++ input_path]⟩
    | .error e => ⟨1, ["Error: " ++ err_msg e]⟩

/-! Helper lemmas about the header search. -/

/-- The csv header search loop fails exactly when no line matches. -/
theorem find_csv_aux_none_iff (lines : List String) :
    ∀ n, find_header_row_csv_aux n lines = none ↔
      ∀ l ∈ lines, header_line_match l = false := by
  induction lines with
  | nil => intro n; simp [find_header_row_csv_aux]
  | cons x rest ih =>
    intro n
    by_cases h : header_line_match x
    · simp [find_header_row_csv_aux, h]
    · simp only [find_header_row_csv_aux, if_neg h]
      rw [ih]
      simp [h]

/-- The csv header search loop finds a matching line right after a block
of non-matching ones, at the index that counts the block. -/
theorem find_csv_aux_block (pre : List String) :
    ∀ n hdr rest, (∀ l ∈ pre, header_line_match l = false) →
      header_line_match hdr = true →
      find_header_row_csv_aux n (pre ++ hdr :: rest) = some (n + pre.length) := by
  induction pre with
  | nil => intro n hdr rest _ hh; simp [find_header_row_csv_aux, hh]
  | cons p ps ih =>
    intro n hdr rest hpre hh
    have hp : header_line_match p = false := hpre p (by simp)
    simp only [List.cons_append, find_header_row_csv_aux, hp, Bool.false_eq_true,
      if_false, List.append_eq]
    rw [ih (n + 1) hdr rest (fun l hl => hpre l (by simp [hl])) hh]
    congr 1
    simp [List.length_cons]
    omega

/-- The grid header search loop fails exactly when no row matches. -/
theorem find_xlsx_aux_none_iff (g : Grid) :
    ∀ n, find_header_row_xlsx_aux n g = none ↔
      ∀ row ∈ g, header_line_match (row_str row) = false := by
  induction g with
  | nil => intro n; simp [find_header_row_xlsx_aux]
  | cons x rest ih =>
    intro n
    by_cases h : header_line_match (row_str x)
    · simp [find_header_row_xlsx_aux, h]
    · simp only [find_header_row_xlsx_aux, if_neg h]
      rw [ih]
      simp [h]

/-- The grid header search loop finds a matching row right after a block
of non-matching ones. -/
theorem find_xlsx_aux_block (pre : Grid) :
    ∀ n hdr rest, (∀ row ∈ pre, header_line_match (row_str row) = false) →
      header_line_match (row_str hdr) = true →
      find_header_row_xlsx_aux n (pre ++ hdr :: rest) = some (n + pre.length) := by
  induction pre with
  | nil => intro n hdr rest _ hh; simp [find_header_row_xlsx_aux, hh]
  | cons p ps ih =>
    intro n hdr rest hpre hh
    have hp : header_line_match (row_str p) = false := hpre p (by simp)
    simp only [List.cons_append, find_header_row_xlsx_aux, hp, Bool.false_eq_true,
      if_false, List.append_eq]
    rw [ih (n + 1) hdr rest (fun l hl => hpre l (by simp [hl])) hh]
    congr 1
    simp [List.length_cons]
    omega

/-- Claim C1: the header locator returns the index of the first line (text
format) or first row (grid format, 1-based as returned by the source)
whose concatenated textual content contains the three marker substrings
Data, Operazione and Dettagli, and the header-not-found error is raised
exactly when no line or row matches; a matching header preceded by any
number of non-matching lines is found at the index that counts them. -/
theorem spec_c1_header_locator :
    (∀ content, transform_csv content = .error .headerNotFound ↔
      ∀ l ∈ splitlines content, header_line_match l = false)
    ∧ (∀ pre hdr rest, (∀ l ∈ pre, header_line_match l = false) →
        header_line_match hdr = true →
        _find_header_row_csv (pre ++ hdr :: rest) = some pre.length)
    ∧ (∀ g : Grid, _find_header_row_xlsx g = none ↔
        ∀ row ∈ g, header_line_match (row_str row) = false)
    ∧ (∀ (pre : Grid) hdr rest,
        (∀ row ∈ pre, header_line_match (row_str row) = false) →
        header_line_match (row_str hdr) = true →
        _find_header_row_xlsx (pre ++ hdr :: rest) = some (pre.length + 1)) := by
  refine ⟨?_, ?_, ?_, ?_⟩
  · intro content
    unfold transform_csv
    rw [← find_csv_aux_none_iff (splitlines content) 0]
    cases h : _find_header_row_csv (splitlines content) with
    | none => simpa [_find_header_row_csv] using h
    | some i =>
      unfold _find_header_row_csv at h
      simp [h]
  · intro pre hdr rest hpre hh
    unfold _find_header_row_csv
    rw [find_csv_aux_block pre 0 hdr rest hpre hh]
    simp
  · intro g
    exact find_xlsx_aux_none_iff g 1
  · intro pre hdr rest hpre hh
    unfold _find_header_row_xlsx
    rw [find_xlsx_aux_block pre 1 hdr rest hpre hh]
    congr 1
    omega

/-- Witness for C1 at a concrete input: a header preceded by two
non-matching lines is reported at index 2 in the text format and at
1-based row 3 in the grid format. -/
theorem spec_c1_header_locator_witness :
    _find_header_row_csv (["meta", "saldo"] ++ "Data,Operazione,Dettagli" :: ["x"]) =
      some 2
    ∧ _find_header_row_xlsx
        ([[some "meta"], [none]] ++
          [some "Data", some "Operazione", some "Dettagli"] :: [[some "x"]]) =
      some 3 := by
  constructor
  · exact spec_c1_header_locator.2.1 ["meta", "saldo"] "Data,Operazione,Dettagli" ["x"]
      (by decide) (by decide)
  · exact spec_c1_header_locator.2.2.2 [[some "meta"], [none]]
      [some "Data", some "Operazione", some "Dettagli"] [[some "x"]]
      (by decide) (by decide)

/-- Claim C2: in both formats every emitted output record has the Account
field equal to the constant Intesa SanPaolo and the Category, Split_Amount
and Cleared fields equal to the empty string, whatever the input row
contains. Fields are addressed by their position in OUTPUT_COLUMNS:
0 Account, 4 Category, 6 Split_Amount, 7 Cleared. -/
theorem spec_c2_constant_fields :
    (∀ content r, r ∈ emitted_rows_csv content →
      r.getD 0 "x" = ACCOUNT_NAME ∧ r.getD 4 "x" = "" ∧ r.getD 6 "x" = ""
        ∧ r.getD 7 "x" = "")
    ∧ (∀ (g : Grid) r, r ∈ emitted_rows_xlsx g →
      r.getD 0 "x" = ACCOUNT_NAME ∧ r.getD 4 "x" = "" ∧ r.getD 6 "x" = ""
        ∧ r.getD 7 "x" = "") := by
  constructor
  · intro content r hr
    unfold emitted_rows_csv at hr
    cases h : _find_header_row_csv (splitlines content) with
    | none => rw [h] at hr; simp at hr
    | some i =>
      rw [h] at hr
      simp only [List.mem_map] at hr
      obtain ⟨rec, _, hrec⟩ := hr
      subst hrec
      simp [csv_output_row]
  · intro g r hr
    unfold emitted_rows_xlsx at hr
    cases h : _find_header_row_xlsx g with
    | none => rw [h] at hr; simp at hr
    | some i =>
      rw [h] at hr
      simp only [List.mem_map] at hr
      obtain ⟨row, _, hrow⟩ := hr
      subst hrow
      simp [xlsx_output_row]

/-- Witness for C2 at a concrete input: the single record produced by a
two-line text input has the constant account and the three blank fields. -/
theorem spec_c2_constant_fields_witness :
    (["Intesa SanPaolo", "1/1/2024", "shop", "stuff", "", "-1", "", ""] : List String)
        ∈ emitted_rows_csv "Data,Operazione,Dettagli,Importo\n1/1/2024,shop,stuff,-1"
    ∧ (["Intesa SanPaolo", "1/1/2024", "shop", "stuff", "", "-1", "", ""] :
        List String).getD 0 "x" = ACCOUNT_NAME := by
  refine ⟨by decide, ?_⟩
  exact (spec_c2_constant_fields.1
    "Data,Operazione,Dettagli,Importo\n1/1/2024,shop,stuff,-1"
    ["Intesa SanPaolo", "1/1/2024", "shop", "stuff", "", "-1", "", ""]
    (by decide)).1

/-- The end-to-end example input of the spec: 19 metadata lines, a header
line carrying the three marker labels and the amount label separated by
commas, then one data line. -/
def ex3_content : String :=
  join_with "\n"
    ["Lista Movimenti", "Conto: 1234", "Intestatario: X", "Periodo: 2024",
     "Saldo iniziale", "Saldo finale", "Valuta: EUR", "Divisa", "Filiale",
     "IBAN: IT00", "BIC", "Tipo conto", "Stato", "Aggiornato al", "Note",
     "Riga vuota", "Altra riga", "Penultima", "Ultima riga di intestazione",
     "Data,Operazione,Dettagli,Importo",
     "15/01/2024,Grocery Store,Supermarket purchase,-45.30"]

/-- The fixed output header line, with the CRLF terminator of the csv
writer. -/
def output_header_line : String :=
  "Account,Date,Payee,Notes,Category,Amount,Split_Amount,Cleared\r\n"

/-- Claim C3: on the concrete 19-metadata-line example the transform
returns exactly the fixed 8-column header line followed by the projected
data line, and every successful output of either format starts with that
exact header line (field order and naming are never altered). -/
theorem spec_c3_end_to_end :
    transform_csv ex3_content =
      .ok (output_header_line ++
        "Intesa SanPaolo,15/01/2024,Grocery Store,Supermarket purchase,,-45.30,,\r\n")
    ∧ (∀ content r, transform_csv content = .ok r →
        ∃ rest, r = output_header_line ++ rest)
    ∧ (∀ (g : Grid) r, transform_xlsx g = .ok r →
        ∃ rest, r = output_header_line ++ rest) := by
  refine ⟨by rfl, ?_, ?_⟩
  · intro content r h
    unfold transform_csv at h
    cases hf : _find_header_row_csv (splitlines content) with
    | none => rw [hf] at h; exact absurd h (by simp)
    | some i =>
      rw [hf] at h
      injection h with h'
      refine ⟨write_rows (emitted_rows_csv content), ?_⟩
      rw [← h']
      rfl
  · intro g r h
    unfold transform_xlsx at h
    cases hf : _find_header_row_xlsx g with
    | none => rw [hf] at h; exact absurd h (by simp)
    | some i =>
      rw [hf] at h
      injection h with h'
      refine ⟨write_rows (emitted_rows_xlsx g), ?_⟩
      rw [← h']
      rfl

/-- Witness for C3: the header-line prefix statement instantiated at the
concrete end-to-end example output. -/
theorem spec_c3_end_to_end_witness :
    ∃ rest,
      (output_header_line ++
        "Intesa SanPaolo,15/01/2024,Grocery Store,Supermarket purchase,,-45.30,,\r\n") =
        output_header_line ++ rest :=
  spec_c3_end_to_end.2.1 ex3_content _ spec_c3_end_to_end.1

/-- Text input with a truly blank line between the header and the data
line. -/
def ex4_with_blank : String :=
  "Data,Operazione,Dettagli,Importo\n\n15/01/2024,A,B,-1"

/-- The same text input without the blank line. -/
def ex4_without_blank : String :=
  "Data,Operazione,Dettagli,Importo\n15/01/2024,A,B,-1"

/-- Counterexample to C4 as stated: in the text format a blank line after
the header does NOT produce an output row with empty fields; the reader
skips the empty record, so this input emits exactly one data row, the
projected data line, rather than the two rows the claim requires. -/
theorem spec_c4_counterexample :
    emitted_rows_csv ex4_with_blank =
      [["Intesa SanPaolo", "15/01/2024", "A", "B", "", "-1", "", ""]]
    ∧ (emitted_rows_csv ex4_with_blank).length = 1 := by
  refine ⟨?_, ?_⟩ <;> rfl

/-- Index lookup just past an appended block hits the appended head. -/
theorem getD_append_len {α : Type} (pre : List α) (x : α) (rest : List α) (d : α) :
    (pre ++ x :: rest).getD pre.length d = x := by
  induction pre with
  | nil => rfl
  | cons p ps ih => simpa using ih

/-- Dropping one past an appended block leaves the appended tail. -/
theorem drop_append_len_succ {α : Type} (pre : List α) (x : α) (rest : List α) :
    (pre ++ x :: rest).drop (pre.length + 1) = rest := by
  induction pre with
  | nil => rfl
  | cons p ps ih => simp only [List.cons_append, List.length_cons, List.drop_succ_cons]; exact ih

/-- Claim C4 amended: the grid format skips a data row whose every cell is
empty or absent, and the text format equally produces zero output rows for
a truly blank line after the header (the labeled-row reader skips records
that parse empty), instead of the one all-empty row the original claim
stated for the text format. -/
theorem spec_c4_blank_rows_amended :
    (∀ (pre : Grid) hdr a blank b,
      (∀ row ∈ pre, header_line_match (row_str row) = false) →
      header_line_match (row_str hdr) = true →
      blank.any cell_truthy = false →
      emitted_rows_xlsx (pre ++ hdr :: (a ++ blank :: b)) =
        emitted_rows_xlsx (pre ++ hdr :: (a ++ b)))
    ∧ transform_csv ex4_with_blank = transform_csv ex4_without_blank := by
  constructor
  · intro pre hdr a blank b hpre hh hblank
    have h1 : _find_header_row_xlsx (pre ++ hdr :: (a ++ blank :: b)) =
        some (1 + pre.length) := by
      unfold _find_header_row_xlsx
      exact find_xlsx_aux_block pre 1 hdr _ hpre hh
    have h2 : _find_header_row_xlsx (pre ++ hdr :: (a ++ b)) =
        some (1 + pre.length) := by
      unfold _find_header_row_xlsx
      exact find_xlsx_aux_block pre 1 hdr _ hpre hh
    unfold emitted_rows_xlsx
    rw [h1, h2]
    dsimp only
    have hd : 1 + pre.length - 1 = pre.length := by omega
    have hdrop : 1 + pre.length = pre.length + 1 := by omega
    rw [hd, hdrop, getD_append_len, getD_append_len, drop_append_len_succ,
      drop_append_len_succ, List.filter_append, List.filter_append,
      List.filter_cons]
    simp [hblank]
  · decide

/-- Witness for the amended C4: a fully empty grid row between the header
and a data row changes nothing in the output. -/
theorem spec_c4_blank_rows_amended_witness :
    emitted_rows_xlsx
        ([] ++ [some "Data", some "Operazione", some "Dettagli"] ::
          ([] ++ [none, some ""] :: [[some "d", some "p"]])) =
      emitted_rows_xlsx
        ([] ++ [some "Data", some "Operazione", some "Dettagli"] ::
          ([] ++ [[some "d", some "p"]])) :=
  spec_c4_blank_rows_amended.1 [] [some "Data", some "Operazione", some "Dettagli"]
    [] [none, some ""] [[some "d", some "p"]] (by decide) (by decide) (by decide)

/-- The column-resolution loop never records an amount column when no cell
of the header trims to the amount label. -/
theorem gci_aux_amount (cells : List Cell) :
    ∀ i acc, (∀ c ∈ cells, cell_str_of c ≠ INPUT_COLUMNS_amount) →
      (get_column_indices_aux i cells acc).amount = acc.amount := by
  induction cells with
  | nil => intro i acc _; rfl
  | cons x rest ih =>
    intro i acc h
    have hx : cell_str_of x ≠ INPUT_COLUMNS_amount := h x (by simp)
    have hrest : ∀ c ∈ rest, cell_str_of c ≠ INPUT_COLUMNS_amount :=
      fun c hc => h c (by simp [hc])
    simp only [get_column_indices_aux]
    rw [ih _ _ hrest]
    repeat' split
    all_goals simp_all

/-- Claim C5: grid column resolution binds each role by exact trimmed
equality with its label; when no header cell trims to the amount label
Importo, the resolved amount index is none, every emitted output row has
an empty Amount field (position 5), and the Date, Payee and Notes fields
(positions 1-3, together with everything outside position 5) do not
depend on the amount index at all — an unresolved role yields the empty
string, never an error. -/
theorem spec_c5_missing_amount :
    (∀ (g : Grid) idx, _find_header_row_xlsx g = some idx →
      (∀ c ∈ g.getD (idx - 1) [], cell_str_of c ≠ INPUT_COLUMNS_amount) →
      ∀ r ∈ emitted_rows_xlsx g, r.getD 5 "x" = "")
    ∧ (∀ (row : List Cell) iD iP iN iA,
        (xlsx_output_row ⟨iD, iP, iN, none⟩ row).take 5 =
          (xlsx_output_row ⟨iD, iP, iN, iA⟩ row).take 5
        ∧ (xlsx_output_row ⟨iD, iP, iN, none⟩ row).drop 6 =
          (xlsx_output_row ⟨iD, iP, iN, iA⟩ row).drop 6
        ∧ role_val none row = "") := by
  constructor
  · intro g idx hf hnone r hr
    unfold emitted_rows_xlsx at hr
    rw [hf] at hr
    dsimp only at hr
    simp only [List.mem_map] at hr
    obtain ⟨row, _, hrow⟩ := hr
    subst hrow
    have hci : (_get_column_indices (g.getD (idx - 1) [])).amount = none := by
      unfold _get_column_indices
      rw [gci_aux_amount _ _ _ hnone]
    simp only [List.getD, List.get?_eq_getElem?] at hci
    simp [xlsx_output_row, hci, role_val]
  · intro row iD iP iN iA
    refine ⟨?_, ?_, ?_⟩ <;> simp [xlsx_output_row, role_val]

/-- Witness for C5: a concrete grid whose header lacks the Importo label
yields a row with an empty Amount field. -/
theorem spec_c5_missing_amount_witness :
    (["Intesa SanPaolo", "d", "p", "n", "", "", "", ""] : List String) ∈
      emitted_rows_xlsx
        [[some "Data", some "Operazione", some "Dettagli"],
         [some "d", some "p", some "n", some "-1"]]
    ∧ (["Intesa SanPaolo", "d", "p", "n", "", "", "", ""] :
        List String).getD 5 "x" = "" := by
  refine ⟨by decide, ?_⟩
  exact spec_c5_missing_amount.1
    [[some "Data", some "Operazione", some "Dettagli"],
     [some "d", some "p", some "n", some "-1"]]
    1 (by decide) (by decide)
    ["Intesa SanPaolo", "d", "p", "n", "", "", "", ""] (by decide)

/-- Claim C6: transform_file dispatches on the extension alone: extension
csv selects the text path, xlsx the grid path, any other extension fails
with an unsupported-type error whose message names the extension, a
stream supplied without a filename — none, or the empty string, which the
truthiness test of the source treats as absent — fails with the
ambiguous-type error, and the dispatch decision is a function of the path
or filename only, never of the content. -/
theorem spec_c6_dispatch :
    (∀ inp name, input_name inp = some name → file_ext name = "csv" →
      transform_file inp = (open_input inp).bind run_csv)
    ∧ (∀ inp name, input_name inp = some name → file_ext name = "xlsx" →
      transform_file inp = (open_input inp).bind run_xlsx)
    ∧ (∀ inp name, input_name inp = some name → file_ext name ≠ "csv" →
      file_ext name ≠ "xlsx" →
      transform_file inp = .error (.unsupportedType (file_ext name)))
    ∧ (∀ e, err_msg (.unsupportedType e) =
        "Unsupported file type: " ++ e ++ ". Use .csv or .xlsx files.")
    ∧ (∀ d, transform_file (.streamInput none d) = .error .ambiguousType)
    ∧ (∀ d, transform_file (.streamInput (some "") d) = .error .ambiguousType)
    ∧ (∀ inp inp', input_name inp = input_name inp' →
        dispatch_of inp = dispatch_of inp') := by
  refine ⟨?_, ?_, ?_, fun _ => rfl, fun _ => rfl, fun _ => rfl, ?_⟩
  · intro inp name hn he
    unfold transform_file dispatch_of
    rw [hn]
    by_cases hx : file_ext name = "xlsx"
    · rw [hx] at he; exact absurd he (by decide)
    · simp [hx, he]
  · intro inp name hn he
    unfold transform_file dispatch_of
    rw [hn]
    simp [he]
  · intro inp name hn h1 h2
    unfold transform_file dispatch_of
    rw [hn]
    simp [h1, h2]
  · intro inp inp' h
    unfold dispatch_of
    rw [h]

/-- Witness for C6: a txt path is rejected with an error naming txt. -/
theorem spec_c6_dispatch_witness :
    transform_file (.pathInput "input.txt" (.found (.textData "x"))) =
      .error (.unsupportedType (file_ext "input.txt")) :=
  spec_c6_dispatch.2.2.1 (.pathInput "input.txt" (.found (.textData "x")))
    "input.txt" rfl (by decide) (by decide)

/-- Counterexample to C7 as stated: the CLI uses the same exit status 1
both for a missing source file and for every other failure, so the
missing-file status is not distinct from the status of other failures. -/
theorem spec_c7_counterexample :
    (main ["converter.py", "missing.csv"] .missing).exitCode = 1
    ∧ (main ["converter.py", "input.txt"] (.found (.textData ""))).exitCode = 1
    ∧ (main ["converter.py", "missing.csv"] .missing).exitCode =
        (main ["converter.py", "input.txt"] (.found (.textData ""))).exitCode := by
  refine ⟨?_, ?_, ?_⟩ <;> decide

/-- Claim C7 amended: a missing source file whose extension selects a
format path (csv or xlsx) makes the CLI print a file-not-found message
naming the path and exit with the non-zero status 1 (the extension check
of transform_file precedes any file open, so a missing path with any
other extension is reported as unsupported type instead); every other
conversion failure raised by the converter with a fixed message (header
not found, unsupported type, ambiguous type) prints that error message
and exits with the same non-zero status 1; and every conversion failure
whatsoever exits with status 1 — the statuses are non-zero but coincide
rather than being distinct. -/
theorem spec_c7_cli_exit_amended :
    (∀ p, (file_ext p = "csv" ∨ file_ext p = "xlsx") →
      main ["converter.py", p] .missing =
        ⟨1, ["Error: File not found: " ++ p]⟩)
    ∧ (∀ argv fs e, 2 ≤ argv.length →
        transform_file (.pathInput (argv.getD 1 "") fs) = .error e →
        (e = .headerNotFound ∨ (∃ s, e = .unsupportedType s)
          ∨ e = .ambiguousType) →
        main argv fs = ⟨1, ["Error: " ++ err_msg e]⟩)
    ∧ (∀ argv fs e, 2 ≤ argv.length →
        transform_file (.pathInput (argv.getD 1 "") fs) = .error e →
        (main argv fs).exitCode = 1) := by
  refine ⟨?_, ?_, ?_⟩
  · intro p hp
    have htf : transform_file (.pathInput p .missing) = .error .fileNotFound := by
      unfold transform_file dispatch_of input_name
      rcases hp with hc | hx
      · have hnx : file_ext p ≠ "xlsx" := by rw [hc]; decide
        simp [hnx, hc, open_input]
        rfl
      · simp [hx, open_input]
        rfl
    unfold main
    rw [if_neg (by simp)]
    dsimp only
    have hg : ["converter.py", p].getD 1 "" = p := rfl
    rw [hg, htf]
  · intro argv fs e hlen htf he
    unfold main
    rw [if_neg (by omega)]
    dsimp only
    rw [htf]
    rcases he with h | ⟨x, h⟩ | h <;> subst h <;> rfl
  · intro argv fs e hlen htf
    unfold main
    rw [if_neg (by omega)]
    dsimp only
    rw [htf]
    cases e <;> rfl

/-- Witness for the amended C7: concrete runs of both failure kinds, with
the same exit status 1. -/
theorem spec_c7_cli_exit_amended_witness :
    main ["converter.py", "missing.csv"] .missing =
      ⟨1, ["Error: File not found: " ++ "missing.csv"]⟩
    ∧ main ["converter.py", "input.txt"] (.found (.textData "")) =
      ⟨1, ["Error: " ++ err_msg (.unsupportedType "txt")]⟩ := by
  constructor
  · exact spec_c7_cli_exit_amended.1 "missing.csv" (Or.inl (by decide))
  · exact spec_c7_cli_exit_amended.2.1 ["converter.py", "input.txt"]
      (.found (.textData "")) (.unsupportedType "txt") (by decide) (by decide)
      (Or.inr (Or.inl ⟨"txt", rfl⟩))

/-- Claim C8: conversion is a deterministic pure transformation — two
runs of transform_file on identical input bytes and identical filename
return byte-identical output. -/
theorem spec_c8_determinism (i1 i2 : FileInput) (h : i1 = i2) :
    transform_file i1 = transform_file i2 := by
  rw [h]

/-- Witness for C8: two identical concrete runs agree. -/
theorem spec_c8_determinism_witness :
    transform_file (.streamInput (some "a.csv") (.textData "Data,Operazione,Dettagli")) =
      transform_file (.streamInput (some "a.csv")
        (.textData "Data,Operazione,Dettagli")) :=
  spec_c8_determinism _ _ rfl

/-- Lines produced by the splitter never contain a line feed. -/
theorem splitlines_aux_no_lf : ∀ (cs acc : List Char), (∀ c ∈ acc, c ≠ '\n') →
    ∀ l ∈ splitlines_aux cs acc, '\n' ∉ l.data := by
  intro cs acc
  induction cs, acc using splitlines_aux.induct with
  | case1 acc he =>
    intro _ l hl
    simp [splitlines_aux, he] at hl
  | case2 acc he =>
    intro hacc l hl
    simp [splitlines_aux, he] at hl
    subst hl
    intro hc
    simp only [String.mk] at hc
    exact hacc '\n' (by simpa using hc) rfl
  | case3 rest acc ih =>
    intro hacc l hl
    rcases List.mem_cons.mp hl with h | h
    · subst h
      intro hc
      exact hacc '\n' (by simpa using hc) rfl
    · exact ih (by simp) l h
  | case4 rest acc hne ih =>
    intro hacc l hl
    rw [splitlines_aux.eq_3 _ _ hne] at hl
    rcases List.mem_cons.mp hl with h | h
    · subst h
      intro hc
      exact hacc '\n' (by simpa using hc) rfl
    · exact ih (by simp) l h
  | case5 rest acc ih =>
    intro hacc l hl
    rcases List.mem_cons.mp hl with h | h
    · subst h
      intro hc
      exact hacc '\n' (by simpa using hc) rfl
    · exact ih (by simp) l h
  | case6 c rest acc h1 h2 h3 ih =>
    intro hacc l hl
    rw [splitlines_aux.eq_5 _ _ _ h1 h2 h3] at hl
    refine ih ?_ l hl
    intro c' hc'
    rcases List.mem_cons.mp hc' with h | h
    · subst h; exact h3
    · exact hacc c' h

/-- Every line of splitlines is free of line feeds. -/
theorem splitlines_no_lf (s : String) : ∀ l ∈ splitlines s, '\n' ∉ l.data :=
  splitlines_aux_no_lf s.data [] (by simp)

/-- A csv reader step on a character other than a line feed completes no
record. -/
theorem csv_step_recs (a : ParseAcc) (c : Char) (h : c ≠ '\n') :
    (csv_step a c).recs = a.recs := by
  unfold csv_step start_field_step end_record
  cases a.st <;> simp [h] <;> (repeat' split) <;> simp_all

/-- Folding the reader over line-feed-free text completes no record. -/
theorem foldl_csv_step_recs (cs : List Char) :
    ∀ a : ParseAcc, (∀ c ∈ cs, c ≠ '\n') → (cs.foldl csv_step a).recs = a.recs := by
  induction cs with
  | nil => intro a _; rfl
  | cons x rest ih =>
    intro a h
    simp only [List.foldl_cons]
    rw [ih _ (fun c hc => h c (by simp [hc]))]
    exact csv_step_recs a x (h x (by simp))

/-- A line-feed-free text parses to at most one csv record. -/
theorem parse_csv_len (s : String) (hn : '\n' ∉ s.data) :
    (parse_csv s).length ≤ 1 := by
  unfold parse_csv csv_flush
  have hr : (s.data.foldl csv_step ⟨[], [], "", .startRecord⟩).recs = [] :=
    foldl_csv_step_recs s.data _ (fun c hc he => hn (he ▸ hc))
  split <;> simp [hr]

/-- Appending the empty string changes nothing. -/
theorem str_append_empty (s : String) : s ++ "" = s := by
  simp

/-- Claim C9: when a header is found but no data rows follow it, both
transforms succeed and return exactly the eight-column output header line
with its CRLF terminator and nothing else; the header line is written
before any data row is examined. -/
theorem spec_c9_header_only :
    (∀ content i, _find_header_row_csv (splitlines content) = some i →
      (splitlines content).length = i + 1 →
      transform_csv content = .ok output_header_line)
    ∧ (∀ (g : Grid) i, _find_header_row_xlsx g = some i → g.length = i →
      transform_xlsx g = .ok output_header_line)
    ∧ write_row OUTPUT_COLUMNS = output_header_line := by
  refine ⟨?_, ?_, rfl⟩
  · intro content i hf hlen
    obtain ⟨l, hl⟩ : ∃ l, (splitlines content).drop i = [l] := by
      apply List.length_eq_one.mp
      rw [List.length_drop]
      omega
    have hlmem : l ∈ splitlines content :=
      List.mem_of_mem_drop (hl ▸ List.mem_singleton.mpr rfl)
    have hlf : '\n' ∉ l.data := splitlines_no_lf content l hlmem
    have hrows : emitted_rows_csv content = [] := by
      unfold emitted_rows_csv
      rw [hf]
      dsimp only
      rw [hl]
      have hone : (parse_csv (join_with "\n" [l])).length ≤ 1 := by
        have hj : join_with "\n" [l] = l := rfl
        rw [hj]
        exact parse_csv_len l hlf
      rw [List.drop_eq_nil_of_le hone]
      rfl
    unfold transform_csv
    rw [hf, hrows]
    show Except.ok (write_row OUTPUT_COLUMNS ++ "") = _
    rw [str_append_empty]
    rfl
  · intro g i hf hlen
    have hrows : emitted_rows_xlsx g = [] := by
      unfold emitted_rows_xlsx
      rw [hf]
      dsimp only
      rw [List.drop_eq_nil_of_le (by omega)]
      rfl
    unfold transform_xlsx
    rw [hf, hrows]
    show Except.ok (write_row OUTPUT_COLUMNS ++ "") = _
    rw [str_append_empty]
    rfl

/-- Witness for C9: an input whose only line is the header produces just
the output header line, in both formats. -/
theorem spec_c9_header_only_witness :
    transform_csv "Data,Operazione,Dettagli" = .ok output_header_line
    ∧ transform_xlsx [[some "Data", some "Operazione", some "Dettagli"]] =
        .ok output_header_line := by
  constructor
  · exact spec_c9_header_only.1 "Data,Operazione,Dettagli" 0 (by decide) (by decide)
  · exact spec_c9_header_only.2.1 [[some "Data", some "Operazione", some "Dettagli"]]
      1 (by decide) (by decide)

/-- On a dot-free name the extension scan keeps every character. -/
theorem last_dot_segment_no_dot : ∀ (cs seg : List Char), '.' ∉ cs →
    last_dot_segment cs seg = seg.reverse ++ cs := by
  intro cs
  induction cs with
  | nil => intro seg _; simp [last_dot_segment]
  | cons c rest ih =>
    intro seg h
    have hc : ¬c = '.' := fun he => h (by simp [he])
    have hrest : '.' ∉ rest := fun hr => h (by simp [hr])
    simp only [last_dot_segment, if_neg hc]
    rw [ih _ hrest]
    simp

/-- Lowercasing never produces a dot from a non-dot character. -/
theorem to_lower_char_dot (c : Char) (h : to_lower_char c = '.') : c = '.' := by
  unfold to_lower_char at h
  cases hf : lower_pairs.find? (fun p => p.1 = c) with
  | none => rw [hf] at h; exact h
  | some p =>
    rw [hf] at h
    exfalso
    have hp : p ∈ lower_pairs := List.mem_of_find?_eq_some hf
    have : ∀ q ∈ lower_pairs, q.2 ≠ '.' := by decide
    exact this p hp h

/-- Lowercasing a dot-free name keeps it dot-free. -/
theorem to_lower_no_dot (s : String) (h : '.' ∉ s.data) :
    '.' ∉ (to_lower_str s).data := by
  unfold to_lower_str
  intro hm
  simp only [List.mem_map] at hm
  obtain ⟨c, hc, hcl⟩ := hm
  exact h (to_lower_char_dot c hcl ▸ hc)

/-- Claim C10: extension detection lowercases the whole name and keeps the
segment after the last dot, so a name with no dot is its own (lowercased)
extension; a stream whose filename is exactly csv or xlsx therefore
dispatches to the corresponding format path, although the upload handler
rejects any filename without a dot. -/
theorem spec_c10_dotless_extension :
    (∀ name, '.' ∉ name.data → file_ext name = to_lower_str name)
    ∧ (∀ d, dispatch_of (.streamInput (some "csv") d) = .toCsv
        ∧ transform_file (.streamInput (some "csv") d) = run_csv d)
    ∧ (∀ d, dispatch_of (.streamInput (some "xlsx") d) = .toXlsx
        ∧ transform_file (.streamInput (some "xlsx") d) = run_xlsx d)
    ∧ allowed_file "csv" = false ∧ allowed_file "xlsx" = false := by
  refine ⟨?_, fun d => ⟨rfl, rfl⟩, fun d => ⟨rfl, rfl⟩, rfl, rfl⟩
  intro name h
  unfold file_ext
  rw [last_dot_segment_no_dot _ _ (to_lower_no_dot name h)]
  simp [to_lower_str]

/-- Witness for C10 at a concrete dotless name. -/
theorem spec_c10_dotless_extension_witness :
    file_ext "CSV" = to_lower_str "CSV" :=
  spec_c10_dotless_extension.1 "CSV" (by decide)
